import Mathlib

/-!
Verification of the WellMed proxy server (src/server.js, two variants).

The source is embedded shallowly: the upstream chat-completion API is a
parameter (an oracle mapping the message list sent upstream to either a
thrown error or an HTTP response), JavaScript objects with possibly absent
fields become structures of `Option` fields, and the request handlers become
pure functions that also report the post-state of the session store and the
upstream calls they issued.
-/

deriving instance DecidableEq for Except

namespace WellMed

/-- A chat message as the JSON objects the server handles. Both fields may be
absent in malformed payloads, mirroring untyped JS property access
(`msg.role`, `msg.content`). -/
structure Message where
  role : Option String
  content : Option String
deriving Repr, DecidableEq

/-- One element of the upstream `choices` array: `choice.message` may be
absent. -/
structure Choice where
  message : Option Message
deriving Repr, DecidableEq

/-- The parsed JSON body of an upstream response: `data.choices` and
`data.error?.message` as optional fields. -/
structure UpstreamBody where
  choices : Option (List Choice)
  errorMessage : Option String
deriving Repr, DecidableEq

/-- An upstream HTTP response: status code plus parsed JSON body.
`ok` is derived as in the fetch API (status in the 2xx range). -/
structure HttpResponse where
  status : Nat
  body : UpstreamBody
deriving Repr, DecidableEq

/-- Mirrors `response.ok` of the fetch API. -/
def HttpResponse.ok (r : HttpResponse) : Bool :=
  decide (200 ≤ r.status) && decide (r.status < 300)

/-- The upstream LLM client as an oracle: from the `messages` array sent
upstream to either a thrown JS error (carrying `error.message`) or a
response. `fetch` rejection and `response.json()` rejection are both the
`Except.error` case. -/
abbrev Upstream := List Message → Except String HttpResponse

/-- Mirrors `data.choices?.[0]?.message?.content` (JS optional chaining,
`[0]` of an empty array being undefined). -/
def firstChoiceContent (data : UpstreamBody) : Option String :=
  ((data.choices.bind List.head?).bind Choice.message).bind Message.content

/-- Whitespace as recognized by JS `String.prototype.trim` (ASCII core:
space, tab, newline, carriage return, vertical tab, form feed). -/
def isJsWhitespace (c : Char) : Bool :=
  c = ' ' || c = '\t' || c = '\n' || c = '\r' || c = '\x0b' || c = '\x0c'

/-- Drops leading whitespace from a character list. -/
def dropLeadingWs : List Char → List Char
  | [] => []
  | c :: cs => if isJsWhitespace c then dropLeadingWs cs else c :: cs

/-- JS `s.trim()`: strips leading and trailing whitespace. -/
def jsTrim (s : String) : String :=
  ⟨dropLeadingWs ((dropLeadingWs s.data.reverse).reverse)⟩

/-- JS `c.toLowerCase()` on a single character (ASCII core). -/
def jsToLowerChar (c : Char) : Char :=
  if 'A' ≤ c ∧ c ≤ 'Z' then Char.ofNat (c.toNat + 32) else c

/-- JS `s.toLowerCase()` (ASCII core). -/
def jsToLower (s : String) : String :=
  ⟨s.data.map jsToLowerChar⟩

/-- Mirrors lines 90-93 and 288-290 of src/server.js:
`const classification = data.choices?.[0]?.message?.content?.trim().toLowerCase();
 return classification === 'yes';`. -/
def classifyDecision (data : UpstreamBody) : Bool :=
  match firstChoiceContent data with
  | some c => jsToLower (jsTrim c) == "yes"
  | none => false

/-- The system prompt of the stateless variant classifier (src/server.js
lines 38-68). -/
def statelessClassifierSystemContent : String :=
  "You are a strict binary classifier. Determine if the user\x27s message is related to any of the following medical topics:\n\nSymptoms (e.g., fever, stomach pain, dizziness, fatigue, \"not feeling well\", \"feeling sick\")\n\nDiseases and conditions (e.g., diabetes, typhoid, asthma, cancer, infections, chronic illness)\n\nMedications or drugs (e.g., paracetamol, antibiotics, insulin, dosage, side effects, drug interactions)\n\nMedical coding (e.g., ICD, CPT, HCPCS, billing codes, modifiers, diagnosis codes)\n\nDiagnosis or treatment (e.g., test results, prescriptions, therapies, interpretation of lab reports)\n\nHealthcare services (e.g., consultation, OPD, emergency, telemedicine, appointments, hospital logistics)\n\nInsurance and billing (e.g., medical claims, reimbursements, coverage questions, preauthorization)\n\nClinical procedures (e.g., MRI, surgery, X-ray, CT scan, biopsy, endoscopy)\n\nBody parts or human anatomy (e.g., heart, lungs, spine, liver, joints, nerves)\n\nMental health (e.g., anxiety, depression, counseling, psychiatric care)\n\nMedical devices or equipment (e.g., pacemaker, glucometer, thermometer, wheelchair)\n\nHealth vitals or measurements (e.g., blood pressure, oxygen saturation, glucose levels, heart rate)\n\nMessages may include direct medical terms or implied medical concerns (e.g., \"I feel unwell\", \"My BP is high\", \"Can I see a doctor today?\").\n\nIf the user\x27s message relates to any of the topics above, respond strictly with \"yes\". Otherwise, respond with \"no\".\n\nDo not explain. Respond with only a single word — \"yes\" or \"no\" — without punctuation."

/-- Mirrors line 33: `messages?.find(msg => msg.role === 'user')?.content || ''`
— the content of the FIRST message whose role is user. -/
def statelessClassifiedContent (messages : List Message) : String :=
  ((messages.find? (fun m => m.role == some "user")).bind Message.content).getD ""

/-- The `classificationPrompt` array built by the stateless `isMedicalQuery`
(lines 35-74): the fixed system message plus one user message holding the
extracted content. -/
def statelessPrompt (messages : List Message) : List Message :=
  [⟨some "system", some statelessClassifierSystemContent⟩,
   ⟨some "user", some (statelessClassifiedContent messages)⟩]

/-- Result of running a classifier: the boolean verdict (or the thrown
error), plus the list of upstream calls issued, each recorded as the
messages array sent. -/
structure ClassifierRun where
  result : Except String Bool
  queries : List (List Message)
deriving Repr, DecidableEq

/-- The stateless variant `isMedicalQuery` (lines 32-94), instrumented with
the upstream calls issued. A thrown fetch/json error propagates (there is no
try/catch inside the function). -/
def isMedicalQueryRun (upstream : Upstream) (messages : List Message) : ClassifierRun :=
  match upstream (statelessPrompt messages) with
  | .error e => ⟨.error e, [statelessPrompt messages]⟩
  | .ok resp => ⟨.ok (classifyDecision resp.body), [statelessPrompt messages]⟩

/-- The stateless variant `isMedicalQuery`, verdict only. -/
def isMedicalQuery (upstream : Upstream) (messages : List Message) : Except String Bool :=
  (isMedicalQueryRun upstream messages).result

/-- Mirrors line 97: `messages?.filter(msg => msg.role === 'user').slice(-1)[0]?.content || ''`
— the content of the LAST message whose role is user. -/
def lastUserContent (messages : List Message) : String :=
  (((messages.filter (fun m => m.role == some "user")).getLast?).bind Message.content).getD ""

/-- Mirrors line 98: the content of the last message whose role is assistant. -/
def lastAssistantContent (messages : List Message) : String :=
  (((messages.filter (fun m => m.role == some "assistant")).getLast?).bind Message.content).getD ""

/-- The simulated context message of line 105:
`${lastAssistantMessage}\n\n${lastUserMessage}`. -/
def simulatedContext (messages : List Message) : String :=
  lastAssistantContent messages ++ "\n\n" ++ lastUserContent messages

/-- The stateless variant `isFollowUpMedicalQuery` (lines 96-112),
instrumented with the upstream calls issued. -/
def isFollowUpMedicalQueryRun (upstream : Upstream) (messages : List Message) : ClassifierRun :=
  let r1 := isMedicalQueryRun upstream [⟨some "user", some (lastUserContent messages)⟩]
  match r1.result with
  | .error e => ⟨.error e, r1.queries⟩
  | .ok true => ⟨.ok true, r1.queries⟩
  | .ok false =>
    let r2 := isMedicalQueryRun upstream [⟨some "user", some (simulatedContext messages)⟩]
    ⟨r2.result, r1.queries ++ r2.queries⟩

/-- The stateless variant `isFollowUpMedicalQuery`, verdict only. -/
def isFollowUpMedicalQuery (upstream : Upstream) (messages : List Message) : Except String Bool :=
  (isFollowUpMedicalQueryRun upstream messages).result

/-- The fixed refusal text sent when the gate denies (lines 135 and 325). -/
def refusalText : String :=
  "❌ Sorry, WellMed AI is strictly a medical coding and healthcare assistant. We can\x27t respond to unrelated topics."

/-- The synthesized refusal message `{ role: 'assistant', content: refusalText }`. -/
def refusalMessage : Message := ⟨some "assistant", some refusalText⟩

/-- The refusal response body `{ choices: [{ message: refusalMessage }] }`
(lines 131-138 and 328-330). -/
def refusalEnvelope : UpstreamBody := ⟨some [⟨some refusalMessage⟩], none⟩

/-- A JSON response sent to the caller: a 200 passthrough/synthesized body, a
400 validation body `{ error }`, or an error body `{ error, details }` with an
explicit status. -/
inductive ApiResponse where
  | success (body : UpstreamBody)
  | badRequest (error : String)
  | errorResp (status : Nat) (error : String) (details : String)
deriving Repr, DecidableEq

/-- The HTTP status code of a response (`res.json` alone responds 200). -/
def ApiResponse.statusCode : ApiResponse → Nat
  | .success _ => 200
  | .badRequest _ => 400
  | .errorResp s _ _ => s

/-- Mirrors `data.error?.message || 'Unknown error'` (lines 161 and 353): JS
`||` falls back both when the field is absent and when it is the empty
string. -/
def extractDetails (body : UpstreamBody) : String :=
  match body.errorMessage with
  | some m => if m == "" then "Unknown error" else m
  | none => "Unknown error"

/-- The stateless `POST /api/chat` handler (lines 120-173), as a function of
the classification oracle, the completion oracle and the request `messages`.
The try/catch around the body maps any thrown error to a 500 response. -/
def handleChat (classifierUpstream completionUpstream : Upstream)
    (messages : List Message) : ApiResponse :=
  match isFollowUpMedicalQuery classifierUpstream messages with
  | .error e => .errorResp 500 "Internal Server Error" e
  | .ok false => .success refusalEnvelope
  | .ok true =>
    match completionUpstream messages with
    | .error e => .errorResp 500 "Internal Server Error" e
    | .ok resp =>
      if resp.ok then .success resp.body
      else .errorResp resp.status "OpenAI API Error" (extractDetails resp.body)

namespace Stateful

/-- The in-memory session store `chatSessions` of the stateful variant,
modelled as an association list from session id to message list. -/
abbrev Sessions := List (String × List Message)

/-- Reads `chatSessions[sessionId]` (none when the key is absent). -/
def lookup : Sessions → String → Option (List Message)
  | [], _ => none
  | (k, v) :: rest, sid => if k = sid then some v else lookup rest sid

/-- Writes `chatSessions[sessionId] = msgs`, replacing an existing entry or
adding a new one. -/
def store : Sessions → String → List Message → Sessions
  | [], sid, msgs => [(sid, msgs)]
  | (k, v) :: rest, sid, msgs =>
    if k = sid then (k, msgs) :: rest else (k, v) :: store rest sid msgs

/-- The seeded system message of the stateful variant (line 314). -/
def seedMessage : Message :=
  ⟨some "system",
   some "You are WellMed AI, a helpful assistant specialized in medical coding and healthcare support."⟩

/-- The system prompt of the stateful variant classifier (src/server.js,
stateful variant, lines 235-270). -/
def classifierSystemContent : String :=
  "You are a strict binary classifier that determines if the latest user message — possibly a follow-up — is related to any medical topic, even if phrased indirectly.\n\nRelevant medical topics include:\nSymptoms (e.g., fever, stomach pain, dizziness, fatigue, \"not feeling well\", \"feeling sick\")\n\nDiseases and conditions (e.g., diabetes, typhoid, asthma, cancer, infections, chronic illness)\n\nMedications or drugs (e.g., paracetamol, antibiotics, insulin, dosage, side effects, drug interactions)\n\nMedical coding (e.g., ICD, CPT, HCPCS, billing codes, modifiers, diagnosis codes)\n\nDiagnosis or treatment (e.g., test results, prescriptions, therapies, interpretation of lab reports)\n\nHealthcare services (e.g., consultation, OPD, emergency, telemedicine, appointments, hospital logistics)\n\nInsurance and billing (e.g., medical claims, reimbursements, coverage questions, preauthorization)\n\nClinical procedures (e.g., MRI, surgery, X-ray, CT scan, biopsy, endoscopy)\n\nBody parts or human anatomy (e.g., heart, lungs, spine, liver, joints, nerves)\n\nMental health (e.g., anxiety, depression, counseling, psychiatric care)\n\nMedical devices or equipment (e.g., pacemaker, glucometer, thermometer, wheelchair)\n\nHealth vitals or measurements (e.g., blood pressure, oxygen saturation, glucose levels, heart rate)\n\nMessages may include direct medical terms or implied medical concerns (e.g., \"I feel i\", \"My BP is high\", \"Can I see a doctor today?\").\n\nImportant:\n- Treat vague follow-ups as medical if the prior message was medical (e.g., \"how long does it take to go away?\" right after \"I have a fever\").\n- Be generous in interpreting intent — users may phrase things differently but still mean the same.\n- Consider the full conversation for context.\n- If the latest message is related to medicine, health, body, symptoms, treatments, or follow-up to such — return \"yes\".\n\nRespond only with one word: \"yes\" or \"no\" — no punctuation."

/-- The `classificationPrompt` of the stateful variant `isMedicalQuery`
(lines 232-272): the fixed system message followed by the whole supplied
conversation (`...messages`). -/
def classifierPrompt (messages : List Message) : List Message :=
  ⟨some "system", some classifierSystemContent⟩ :: messages

/-- The stateful variant `isMedicalQuery` (lines 231-291), instrumented with
the upstream calls issued. The answer extraction (lines 288-290) is
`classifyDecision`, identical to the stateless variant. -/
def isMedicalQueryRun (upstream : Upstream) (messages : List Message) : ClassifierRun :=
  match upstream (classifierPrompt messages) with
  | .error e => ⟨.error e, [classifierPrompt messages]⟩
  | .ok resp => ⟨.ok (classifyDecision resp.body), [classifierPrompt messages]⟩

/-- The stateful variant `isMedicalQuery`, verdict only. -/
def isMedicalQuery (upstream : Upstream) (messages : List Message) : Except String Bool :=
  (isMedicalQueryRun upstream messages).result

/-- The session list used for this request: the stored list, or the seeded
list when the session is absent (lines 312-316). -/
def sessionBase (sessions : Sessions) (sid : String) : List Message :=
  match lookup sessions sid with
  | some l => l
  | none => [seedMessage]

/-- The session content right after `chatSessions[sessionId].push(message)`
(line 318): the base list with the incoming message appended. -/
def contextAfterAppend (sessions : Sessions) (sid : String) (msg : Message) : List Message :=
  sessionBase sessions sid ++ [msg]

/-- Outcome of one stateful `POST /api/chat` request: the response, the
post-state of the session store, and the upstream calls issued by the
classifier and by the completion step. -/
structure HandlerResult where
  resp : ApiResponse
  sessions : Sessions
  classifierCalls : List (List Message)
  completionCalls : List (List Message)
deriving Repr, DecidableEq

/-- The stateful `POST /api/chat` handler (stateful variant, lines 298-370).
Validation (`!sessionId || !message || message.role !== 'user'`, with JS
falsiness of the empty string) precedes any mutation; the incoming message
is pushed before classification; the refusal or the extracted assistant
reply is pushed after the decision; the try/catch maps thrown errors to a
500 response, leaving the already-pushed user message in place. -/
def handleChat (upstream completionUpstream : Upstream) (sessions : Sessions)
    (sessionId : Option String) (message : Option Message) : HandlerResult :=
  match sessionId, message with
  | some sid, some msg =>
    if sid = "" ∨ msg.role ≠ some "user" then
      ⟨.badRequest "Missing or invalid sessionId or message", sessions, [], []⟩
    else
      let ctx := contextAfterAppend sessions sid msg
      let s1 := store sessions sid ctx
      let run := isMedicalQueryRun upstream ctx
      match run.result with
      | .error e => ⟨.errorResp 500 "Internal Server Error" e, s1, run.queries, []⟩
      | .ok false =>
        ⟨.success ⟨some [⟨some refusalMessage⟩], none⟩,
         store s1 sid (ctx ++ [refusalMessage]), run.queries, []⟩
      | .ok true =>
        match completionUpstream ctx with
        | .error e => ⟨.errorResp 500 "Internal Server Error" e, s1, run.queries, [ctx]⟩
        | .ok resp =>
          if resp.ok then
            match (resp.body.choices.bind List.head?).bind Choice.message with
            | some reply => ⟨.success resp.body, store s1 sid (ctx ++ [reply]), run.queries, [ctx]⟩
            | none => ⟨.success resp.body, s1, run.queries, [ctx]⟩
          else
            ⟨.errorResp resp.status "OpenAI API Error" (extractDetails resp.body),
             s1, run.queries, [ctx]⟩
  | _, _ => ⟨.badRequest "Missing or invalid sessionId or message", sessions, [], []⟩

/-- Every stored session list begins with the seeded system message. -/
def startsWithSeed (sessions : Sessions) : Prop :=
  ∀ p ∈ sessions, ∃ rest, p.2 = seedMessage :: rest

/-- Applies one stateful request to the store, keeping only the post-state. -/
def applyRequest (upstream completionUpstream : Upstream) (s : Sessions)
    (req : Option String × Option Message) : Sessions :=
  (handleChat upstream completionUpstream s req.1 req.2).sessions

end Stateful

/-! Concrete fixtures used by witnesses and counterexamples: stubbed
upstream oracles answering "yes", answering "no", and throwing. -/

/-- A response body whose first choice answers "yes". -/
def yesBody : UpstreamBody := ⟨some [⟨some ⟨some "assistant", some "yes"⟩⟩], none⟩

/-- A response body whose first choice answers "no". -/
def noBody : UpstreamBody := ⟨some [⟨some ⟨some "assistant", some "no"⟩⟩], none⟩

/-- An upstream stub that always answers "yes" with status 200. -/
def yesUpstream : Upstream := fun _ => .ok ⟨200, yesBody⟩

/-- An upstream stub that always answers "no" with status 200. -/
def noUpstream : Upstream := fun _ => .ok ⟨200, noBody⟩

/-- An upstream stub whose request always throws. -/
def failUpstream : Upstream := fun _ => .error "network failure"

/-- An upstream response carrying a 429 error with a message, as the
completion step may receive. -/
def err429 : HttpResponse := ⟨429, ⟨none, some "quota exceeded"⟩⟩

/-- A completion stub answering the 429 error response. -/
def err429Upstream : Upstream := fun _ => .ok err429

/-- Modelled from the spec for comparison with the code: the content of the
latest (most recent) user turn of the conversation, the message the
stateless single-message policy says it classifies. -/
def specLatestUserContent (messages : List Message) : String :=
  (((messages.filter (fun m => m.role == some "user")).getLast?).bind Message.content).getD ""

/-- A conversation with two user turns, exercising the gap between the first
and the latest user message. -/
def multiTurnConversation : List Message :=
  [⟨some "user", some "ICD code for diabetes"⟩,
   ⟨some "assistant", some "E11.9"⟩,
   ⟨some "user", some "what is the weather today?"⟩]

/-- The classifier run always issues exactly one upstream call, on the built
classification prompt. -/
theorem isMedicalQueryRun_queries (upstream : Upstream) (messages : List Message) :
    (isMedicalQueryRun upstream messages).queries = [statelessPrompt messages] := by
  unfold isMedicalQueryRun
  cases h : upstream (statelessPrompt messages) <;> simp

/-- C1: the classifier verdict is true exactly when the first choice's
message content from the upstream response, trimmed and lower-cased, is the
literal "yes"; any other or missing content gives false. The stateless
classifier returns exactly this verdict computed on the stubbed oracle's
response body. -/
theorem topic_classifier_yes_iff (data : UpstreamBody) (upstream : Upstream)
    (messages : List Message) (resp : HttpResponse)
    (h : upstream (statelessPrompt messages) = .ok resp) :
    (classifyDecision data = true ↔
      ∃ c, firstChoiceContent data = some c ∧ jsToLower (jsTrim c) = "yes") ∧
    isMedicalQuery upstream messages = .ok (classifyDecision resp.body) := by
  constructor
  · unfold classifyDecision
    cases hc : firstChoiceContent data with
    | none => simp
    | some c => simp [hc]
  · unfold isMedicalQuery isMedicalQueryRun
    simp [h]

/-- Witness for C1 at the concrete "yes" stub. -/
theorem topic_classifier_yes_iff_witness :
    (classifyDecision yesBody = true ↔
      ∃ c, firstChoiceContent yesBody = some c ∧ jsToLower (jsTrim c) = "yes") ∧
    isMedicalQuery yesUpstream [] = .ok (classifyDecision yesBody) :=
  topic_classifier_yes_iff yesBody yesUpstream [] ⟨200, yesBody⟩ rfl

/-- C9: with the upstream client stubbed to any fixed oracle, classifying
the same conversation twice yields the same boolean verdict — every embedded
classifier is a pure function of the stub and the conversation. -/
theorem classification_deterministic (stub : Upstream) (messages : List Message) :
    isMedicalQuery stub messages = isMedicalQuery stub messages ∧
    isFollowUpMedicalQuery stub messages = isFollowUpMedicalQuery stub messages ∧
    Stateful.isMedicalQuery stub messages = Stateful.isMedicalQuery stub messages :=
  ⟨rfl, rfl, rfl⟩

/-- C3: the context-aware gate first classifies the latest user message
alone; a true verdict allows with exactly that single classifier call, and a
false verdict triggers exactly one second call on the synthesized
assistant-plus-user message, whose verdict is the gate's answer. -/
theorem follow_up_gate_policy (upstream : Upstream) (messages : List Message) :
    ((isMedicalQueryRun upstream [⟨some "user", some (lastUserContent messages)⟩]).result
        = .ok true →
      isFollowUpMedicalQueryRun upstream messages =
        ⟨.ok true, [statelessPrompt [⟨some "user", some (lastUserContent messages)⟩]]⟩) ∧
    ((isMedicalQueryRun upstream [⟨some "user", some (lastUserContent messages)⟩]).result
        = .ok false →
      isFollowUpMedicalQueryRun upstream messages =
        ⟨(isMedicalQueryRun upstream [⟨some "user", some (simulatedContext messages)⟩]).result,
         [statelessPrompt [⟨some "user", some (lastUserContent messages)⟩],
          statelessPrompt [⟨some "user", some (simulatedContext messages)⟩]]⟩) := by
  have hq1 := isMedicalQueryRun_queries upstream [⟨some "user", some (lastUserContent messages)⟩]
  have hq2 := isMedicalQueryRun_queries upstream [⟨some "user", some (simulatedContext messages)⟩]
  constructor
  · intro h
    simp [isFollowUpMedicalQueryRun, h, hq1]
  · intro h
    simp [isFollowUpMedicalQueryRun, h, hq1, hq2]

/-- Witness for C3 at the concrete "yes" stub. -/
theorem follow_up_gate_policy_witness :
    (isMedicalQueryRun yesUpstream
        [⟨some "user", some (lastUserContent [⟨some "user", some "fever"⟩])⟩]).result
      = .ok true ∧
    isFollowUpMedicalQueryRun yesUpstream [⟨some "user", some "fever"⟩] =
      ⟨.ok true,
       [statelessPrompt [⟨some "user", some (lastUserContent [⟨some "user", some "fever"⟩])⟩]]⟩ :=
  ⟨by decide, (follow_up_gate_policy yesUpstream [⟨some "user", some "fever"⟩]).1 (by decide)⟩

/-- A find over a list equals the head of its filtered sublist. -/
theorem find?_eq_head?_filter (p : Message → Bool) (l : List Message) :
    l.find? p = (l.filter p).head? := by
  induction l with
  | nil => rfl
  | cons x xs ih =>
    by_cases h : p x
    · rw [List.find?_cons_of_pos _ h, List.filter_cons_of_pos h, List.head?_cons]
    · rw [List.find?_cons_of_neg _ h, List.filter_cons_of_neg h, ih]

/-- C8 counterexample: on a conversation with two user turns, the stateless
classifier submits the first user turn's content, not the latest one. -/
theorem stateless_single_message_counterexample :
    statelessClassifiedContent multiTurnConversation = "ICD code for diabetes" ∧
    specLatestUserContent multiTurnConversation = "what is the weather today?" ∧
    statelessClassifiedContent multiTurnConversation
      ≠ specLatestUserContent multiTurnConversation ∧
    (isMedicalQueryRun yesUpstream multiTurnConversation).queries =
      [[⟨some "system", some statelessClassifierSystemContent⟩,
        ⟨some "user", some "ICD code for diabetes"⟩]] := by
  refine ⟨rfl, rfl, by decide, rfl⟩

/-- C8 amended: the stateless classifier submits the first user turn's
content; when the conversation holds exactly one user turn, this coincides
with the latest user turn's content. -/
theorem stateless_single_message_amended (upstream : Upstream) (messages : List Message)
    (h : (messages.filter (fun m => m.role == some "user")).length = 1) :
    (isMedicalQueryRun upstream messages).queries =
      [[⟨some "system", some statelessClassifierSystemContent⟩,
        ⟨some "user", some (statelessClassifiedContent messages)⟩]] ∧
    statelessClassifiedContent messages = specLatestUserContent messages := by
  constructor
  · exact isMedicalQueryRun_queries upstream messages
  · obtain ⟨a, ha⟩ := List.length_eq_one.mp h
    unfold statelessClassifiedContent specLatestUserContent
    rw [find?_eq_head?_filter, ha]
    rfl

/-- Witness for C8's amended statement on a one-user-turn conversation. -/
theorem stateless_single_message_amended_witness :
    (([⟨some "user", some "fever"⟩] : List Message).filter
        (fun m => m.role == some "user")).length = 1 ∧
    statelessClassifiedContent [⟨some "user", some "fever"⟩]
      = specLatestUserContent [⟨some "user", some "fever"⟩] :=
  ⟨by decide,
   (stateless_single_message_amended yesUpstream [⟨some "user", some "fever"⟩] (by decide)).2⟩

/-- C2 counterexample: when the upstream call made during classification
throws, the stateless handler answers with the 500 response of its catch
block, not with the refusal envelope the claim promises. -/
theorem classification_failure_counterexample :
    handleChat failUpstream yesUpstream [⟨some "user", some "hello"⟩]
        = .errorResp 500 "Internal Server Error" "network failure" ∧
    handleChat failUpstream yesUpstream [⟨some "user", some "hello"⟩]
        ≠ .success refusalEnvelope := by
  exact ⟨rfl, by decide⟩

/-- C2 amended: a thrown upstream error during classification is caught by
the route handler and answered as HTTP 500 with body { error, details } — no
unhandled fault propagates, but the caller receives this distinct error
response rather than the refusal. Only a classification that completes with
a parseable non-"yes" body resolves to the deny decision and its refusal
envelope. -/
theorem classification_failure_amended (classifierUpstream completionUpstream : Upstream)
    (messages : List Message) (e : String) :
    (isFollowUpMedicalQuery classifierUpstream messages = .error e →
        handleChat classifierUpstream completionUpstream messages
          = .errorResp 500 "Internal Server Error" e) ∧
    (isFollowUpMedicalQuery classifierUpstream messages = .ok false →
        handleChat classifierUpstream completionUpstream messages
          = .success refusalEnvelope) := by
  constructor <;> intro h <;> simp [handleChat, h]

/-- Witness for C2's amended statement at the throwing stub. -/
theorem classification_failure_amended_witness :
    isFollowUpMedicalQuery failUpstream [⟨some "user", some "hello"⟩]
        = .error "network failure" ∧
    handleChat failUpstream yesUpstream [⟨some "user", some "hello"⟩]
        = .errorResp 500 "Internal Server Error" "network failure" :=
  ⟨rfl,
   (classification_failure_amended failUpstream yesUpstream
      [⟨some "user", some "hello"⟩] "network failure").1 rfl⟩

/-- C4: every denied request is answered with status 200 and exactly the
envelope with one choice holding one assistant message carrying the fixed
refusal text, in both the stateless and the stateful variant. -/
theorem denied_refusal_envelope (classifierUpstream completionUpstream u comU : Upstream)
    (messages : List Message) (sessions : Stateful.Sessions) (sid : String) (msg : Message) :
    (isFollowUpMedicalQuery classifierUpstream messages = .ok false →
        handleChat classifierUpstream completionUpstream messages
          = .success refusalEnvelope) ∧
    (sid ≠ "" → msg.role = some "user" →
        (Stateful.isMedicalQueryRun u
            (Stateful.contextAfterAppend sessions sid msg)).result = .ok false →
        (Stateful.handleChat u comU sessions (some sid) (some msg)).resp
          = .success refusalEnvelope) ∧
    refusalEnvelope = ⟨some [⟨some ⟨some "assistant", some refusalText⟩⟩], none⟩ ∧
    (ApiResponse.success refusalEnvelope).statusCode = 200 := by
  refine ⟨?_, ?_, rfl, rfl⟩
  · intro h
    simp [handleChat, h]
  · intro hsid hrole h
    simp [Stateful.handleChat, hsid, hrole, h, refusalEnvelope, refusalMessage]

/-- Witness for C4 at the concrete "no" stub, in both variants. -/
theorem denied_refusal_envelope_witness :
    isFollowUpMedicalQuery noUpstream [⟨some "user", some "weather"⟩] = .ok false ∧
    handleChat noUpstream yesUpstream [⟨some "user", some "weather"⟩]
      = .success refusalEnvelope ∧
    (Stateful.handleChat noUpstream yesUpstream []
        (some "s1") (some ⟨some "user", some "weather"⟩)).resp
      = .success refusalEnvelope := by
  have h := denied_refusal_envelope noUpstream yesUpstream noUpstream yesUpstream
    [⟨some "user", some "weather"⟩] [] "s1" ⟨some "user", some "weather"⟩
  exact ⟨by decide, h.1 (by decide), h.2.1 (by decide) rfl (by decide)⟩

/-- C7: when an allowed request's completion call returns a non-2xx status,
both handlers mirror that status and answer { error, details }, the details
being the message extracted from the upstream body, with the generic
fallback when the body carries none. -/
theorem upstream_error_mirrored (classifierUpstream completionUpstream u comU : Upstream)
    (messages : List Message) (resp : HttpResponse)
    (sessions : Stateful.Sessions) (sid : String) (msg : Message) :
    (isFollowUpMedicalQuery classifierUpstream messages = .ok true →
        completionUpstream messages = .ok resp → resp.ok = false →
        handleChat classifierUpstream completionUpstream messages
          = .errorResp resp.status "OpenAI API Error" (extractDetails resp.body)) ∧
    (sid ≠ "" → msg.role = some "user" →
        (Stateful.isMedicalQueryRun u
            (Stateful.contextAfterAppend sessions sid msg)).result = .ok true →
        comU (Stateful.contextAfterAppend sessions sid msg) = .ok resp → resp.ok = false →
        (Stateful.handleChat u comU sessions (some sid) (some msg)).resp
          = .errorResp resp.status "OpenAI API Error" (extractDetails resp.body)) ∧
    (∀ m, resp.body.errorMessage = some m → m ≠ "" → extractDetails resp.body = m) ∧
    (resp.body.errorMessage = none → extractDetails resp.body = "Unknown error") := by
  refine ⟨?_, ?_, ?_, ?_⟩
  · intro h hc hok
    simp [handleChat, h, hc, hok]
  · intro hsid hrole h hc hok
    simp [Stateful.handleChat, hsid, hrole, h, hc, hok]
  · intro m hm hne
    simp [extractDetails, hm, hne]
  · intro hm
    simp [extractDetails, hm]

/-- Witness for C7 at the concrete 429 stub, in both variants. -/
theorem upstream_error_mirrored_witness :
    handleChat yesUpstream err429Upstream [⟨some "user", some "fever"⟩]
      = .errorResp 429 "OpenAI API Error" "quota exceeded" ∧
    (Stateful.handleChat yesUpstream err429Upstream []
        (some "s1") (some ⟨some "user", some "fever"⟩)).resp
      = .errorResp 429 "OpenAI API Error" "quota exceeded" := by
  have h := upstream_error_mirrored yesUpstream err429Upstream yesUpstream err429Upstream
    [⟨some "user", some "fever"⟩] err429 [] "s1" ⟨some "user", some "fever"⟩
  exact ⟨h.1 (by decide) rfl (by decide), h.2.1 (by decide) rfl (by decide) rfl (by decide)⟩

/-- The stateful classifier run always issues exactly one upstream call, on
the prompt built from the supplied conversation. -/
theorem stateful_isMedicalQueryRun_queries (upstream : Upstream) (messages : List Message) :
    (Stateful.isMedicalQueryRun upstream messages).queries
      = [Stateful.classifierPrompt messages] := by
  unfold Stateful.isMedicalQueryRun
  cases h : upstream (Stateful.classifierPrompt messages) <;> simp

/-- Looking a key up right after storing it yields the stored value. -/
theorem lookup_store_self (s : Stateful.Sessions) (sid : String) (v : List Message) :
    Stateful.lookup (Stateful.store s sid v) sid = some v := by
  induction s with
  | nil => simp [Stateful.store, Stateful.lookup]
  | cons p rest ih =>
    obtain ⟨k, w⟩ := p
    by_cases h : k = sid
    · simp [Stateful.store, Stateful.lookup, h]
    · simp [Stateful.store, Stateful.lookup, h, ih]

/-- Every entry of the store after a write is the written value or an
entry that was already present. -/
theorem mem_store (s : Stateful.Sessions) (sid : String) (v : List Message)
    (p : String × List Message) (hp : p ∈ Stateful.store s sid v) :
    p.2 = v ∨ p ∈ s := by
  induction s with
  | nil =>
    simp [Stateful.store] at hp
    simp [hp]
  | cons q rest ih =>
    obtain ⟨k, w⟩ := q
    by_cases h : k = sid
    · simp [Stateful.store, h] at hp
      rcases hp with hp | hp
      · simp [hp]
      · exact Or.inr (List.mem_cons_of_mem _ hp)
    · simp [Stateful.store, h] at hp
      rcases hp with hp | hp
      · exact Or.inr (by simp [hp])
      · rcases ih hp with h2 | h2
        · exact Or.inl h2
        · exact Or.inr (List.mem_cons_of_mem _ h2)

/-- A successful lookup returns a value present in the store. -/
theorem lookup_mem (s : Stateful.Sessions) (sid : String) (l : List Message)
    (h : Stateful.lookup s sid = some l) : (sid, l) ∈ s := by
  induction s with
  | nil => simp [Stateful.lookup] at h
  | cons q rest ih =>
    obtain ⟨k, w⟩ := q
    by_cases hk : k = sid
    · subst hk
      simp [Stateful.lookup] at h
      simp [h]
    · simp [Stateful.lookup, hk] at h
      exact List.mem_cons_of_mem _ (ih h)

/-- Storing a seed-headed list keeps the seed invariant. -/
theorem startsWithSeed_store (s : Stateful.Sessions) (sid : String) (v : List Message)
    (hs : Stateful.startsWithSeed s) (hv : ∃ rest, v = Stateful.seedMessage :: rest) :
    Stateful.startsWithSeed (Stateful.store s sid v) := by
  intro p hp
  rcases mem_store s sid v p hp with h | h
  · rw [h]; exact hv
  · exact hs p h

/-- The session list selected for a request starts with the seed whenever
the store satisfies the seed invariant (the absent case seeds it). -/
theorem sessionBase_seed (s : Stateful.Sessions) (sid : String)
    (hs : Stateful.startsWithSeed s) :
    ∃ rest, Stateful.sessionBase s sid = Stateful.seedMessage :: rest := by
  unfold Stateful.sessionBase
  cases h : Stateful.lookup s sid with
  | none => exact ⟨[], rfl⟩
  | some l =>
    obtain ⟨rest, hrest⟩ := hs (sid, l) (lookup_mem s sid l h)
    exact ⟨rest, hrest⟩

/-- The appended context starts with the seed under the seed invariant. -/
theorem contextAfterAppend_seed (s : Stateful.Sessions) (sid : String) (msg : Message)
    (hs : Stateful.startsWithSeed s) :
    ∃ t, Stateful.contextAfterAppend s sid msg = Stateful.seedMessage :: t := by
  obtain ⟨r, hr⟩ := sessionBase_seed s sid hs
  exact ⟨r ++ [msg], by simp [Stateful.contextAfterAppend, hr]⟩

/-- Case characterization of the stateful handler on a valid request: the
exact result record in each of the five reachable branches. -/
theorem stateful_handleChat_cases (u comU : Upstream) (s : Stateful.Sessions)
    (sid : String) (msg : Message)
    (hsid : sid ≠ "") (hrole : msg.role = some "user") :
    (∀ e, (Stateful.isMedicalQueryRun u (Stateful.contextAfterAppend s sid msg)).result
        = .error e →
      Stateful.handleChat u comU s (some sid) (some msg) =
        ⟨.errorResp 500 "Internal Server Error" e,
         Stateful.store s sid (Stateful.contextAfterAppend s sid msg),
         [Stateful.classifierPrompt (Stateful.contextAfterAppend s sid msg)], []⟩) ∧
    ((Stateful.isMedicalQueryRun u (Stateful.contextAfterAppend s sid msg)).result
        = .ok false →
      Stateful.handleChat u comU s (some sid) (some msg) =
        ⟨.success ⟨some [⟨some refusalMessage⟩], none⟩,
         Stateful.store (Stateful.store s sid (Stateful.contextAfterAppend s sid msg)) sid
           (Stateful.contextAfterAppend s sid msg ++ [refusalMessage]),
         [Stateful.classifierPrompt (Stateful.contextAfterAppend s sid msg)], []⟩) ∧
    (∀ e, (Stateful.isMedicalQueryRun u (Stateful.contextAfterAppend s sid msg)).result
        = .ok true →
      comU (Stateful.contextAfterAppend s sid msg) = .error e →
      Stateful.handleChat u comU s (some sid) (some msg) =
        ⟨.errorResp 500 "Internal Server Error" e,
         Stateful.store s sid (Stateful.contextAfterAppend s sid msg),
         [Stateful.classifierPrompt (Stateful.contextAfterAppend s sid msg)],
         [Stateful.contextAfterAppend s sid msg]⟩) ∧
    (∀ resp, (Stateful.isMedicalQueryRun u (Stateful.contextAfterAppend s sid msg)).result
        = .ok true →
      comU (Stateful.contextAfterAppend s sid msg) = .ok resp → resp.ok = false →
      Stateful.handleChat u comU s (some sid) (some msg) =
        ⟨.errorResp resp.status "OpenAI API Error" (extractDetails resp.body),
         Stateful.store s sid (Stateful.contextAfterAppend s sid msg),
         [Stateful.classifierPrompt (Stateful.contextAfterAppend s sid msg)],
         [Stateful.contextAfterAppend s sid msg]⟩) ∧
    (∀ resp, (Stateful.isMedicalQueryRun u (Stateful.contextAfterAppend s sid msg)).result
        = .ok true →
      comU (Stateful.contextAfterAppend s sid msg) = .ok resp → resp.ok = true →
      Stateful.handleChat u comU s (some sid) (some msg) =
        ⟨.success resp.body,
         (match (resp.body.choices.bind List.head?).bind Choice.message with
          | some reply =>
            Stateful.store (Stateful.store s sid (Stateful.contextAfterAppend s sid msg)) sid
              (Stateful.contextAfterAppend s sid msg ++ [reply])
          | none => Stateful.store s sid (Stateful.contextAfterAppend s sid msg)),
         [Stateful.classifierPrompt (Stateful.contextAfterAppend s sid msg)],
         [Stateful.contextAfterAppend s sid msg]⟩) := by
  have hq := stateful_isMedicalQueryRun_queries u (Stateful.contextAfterAppend s sid msg)
  refine ⟨?_, ?_, ?_, ?_, ?_⟩
  · intro e h
    simp [Stateful.handleChat, hsid, hrole, h, hq]
  · intro h
    simp [Stateful.handleChat, hsid, hrole, h, hq]
  · intro e h hc
    simp [Stateful.handleChat, hsid, hrole, h, hc, hq]
  · intro resp h hc hok
    simp [Stateful.handleChat, hsid, hrole, h, hc, hok, hq]
  · intro resp h hc hok
    cases hrep : (resp.body.choices.bind List.head?).bind Choice.message with
    | none => simp [Stateful.handleChat, hsid, hrole, h, hc, hok, hrep, hq]
    | some reply => simp [Stateful.handleChat, hsid, hrole, h, hc, hok, hrep, hq]

/-- A valid stateful request never answers the validation 400 body. -/
theorem stateful_valid_not_badRequest (u comU : Upstream) (s : Stateful.Sessions)
    (sid : String) (msg : Message)
    (hsid : sid ≠ "") (hrole : msg.role = some "user") (err : String) :
    (Stateful.handleChat u comU s (some sid) (some msg)).resp ≠ .badRequest err := by
  have hc := stateful_handleChat_cases u comU s sid msg hsid hrole
  cases hrun : (Stateful.isMedicalQueryRun u (Stateful.contextAfterAppend s sid msg)).result with
  | error e => rw [hc.1 e hrun]; simp
  | ok b =>
    cases b with
    | false => rw [hc.2.1 hrun]; simp
    | true =>
      cases hcu : comU (Stateful.contextAfterAppend s sid msg) with
      | error e => rw [hc.2.2.1 e hrun hcu]; simp
      | ok resp =>
        cases hok : resp.ok with
        | false => rw [hc.2.2.2.1 resp hrun hcu hok]; simp
        | true => rw [hc.2.2.2.2 resp hrun hcu hok]; simp

/-- One stateful request preserves the seed invariant of the store. -/
theorem stateful_preserves_seed (u comU : Upstream) (s : Stateful.Sessions)
    (sessionId : Option String) (message : Option Message)
    (hs : Stateful.startsWithSeed s) :
    Stateful.startsWithSeed (Stateful.handleChat u comU s sessionId message).sessions := by
  cases sessionId with
  | none =>
    have h : (Stateful.handleChat u comU s none message).sessions = s := by
      cases message <;> rfl
    rw [h]; exact hs
  | some sid =>
    cases message with
    | none => exact hs
    | some msg =>
      by_cases hv : sid = "" ∨ msg.role ≠ some "user"
      · have h : (Stateful.handleChat u comU s (some sid) (some msg)).sessions = s := by
          simp [Stateful.handleChat, hv]
        rw [h]; exact hs
      · push_neg at hv
        obtain ⟨hsid, hrole⟩ := hv
        have hc := stateful_handleChat_cases u comU s sid msg hsid hrole
        obtain ⟨t, ht⟩ := contextAfterAppend_seed s sid msg hs
        have hstore1 : Stateful.startsWithSeed
            (Stateful.store s sid (Stateful.contextAfterAppend s sid msg)) :=
          startsWithSeed_store s sid _ hs ⟨t, ht⟩
        have happ : ∀ x : Message, ∃ t2, Stateful.contextAfterAppend s sid msg ++ [x]
            = Stateful.seedMessage :: t2 := by
          intro x
          exact ⟨t ++ [x], by simp [ht]⟩
        cases hrun : (Stateful.isMedicalQueryRun u
            (Stateful.contextAfterAppend s sid msg)).result with
        | error e => rw [hc.1 e hrun]; exact hstore1
        | ok b =>
          cases b with
          | false =>
            rw [hc.2.1 hrun]
            exact startsWithSeed_store _ sid _ hstore1 (happ refusalMessage)
          | true =>
            cases hcu : comU (Stateful.contextAfterAppend s sid msg) with
            | error e => rw [hc.2.2.1 e hrun hcu]; exact hstore1
            | ok resp =>
              cases hok : resp.ok with
              | false => rw [hc.2.2.2.1 resp hrun hcu hok]; exact hstore1
              | true =>
                rw [hc.2.2.2.2 resp hrun hcu hok]
                cases hrep : (resp.body.choices.bind List.head?).bind Choice.message with
                | none => simp only [hrep]; exact hstore1
                | some reply =>
                  simp only [hrep]
                  exact startsWithSeed_store _ sid _ hstore1 (happ reply)

/-- Any request sequence started from the empty store keeps every session
list seed-headed. -/
theorem foldl_startsWithSeed (u comU : Upstream)
    (reqs : List (Option String × Option Message)) :
    ∀ s, Stateful.startsWithSeed s →
      Stateful.startsWithSeed (reqs.foldl (Stateful.applyRequest u comU) s) := by
  induction reqs with
  | nil => intro s hs; exact hs
  | cons r rest ih =>
    intro s hs
    exact ih _ (stateful_preserves_seed u comU s r.1 r.2 hs)

/-- C5: sessions reachable from the empty store always begin with the seeded
system message; on a valid request the incoming user message is appended
before the single classification call, whose context therefore ends with the
newest message; and the assistant reply — the synthesized refusal on deny,
or the extracted upstream reply on success — is appended after the
decision. -/
theorem stateful_session_invariants (u comU : Upstream) (sessions : Stateful.Sessions)
    (sid : String) (msg : Message) (reqs : List (Option String × Option Message))
    (hsid : sid ≠ "") (hrole : msg.role = some "user")
    (hseed : Stateful.startsWithSeed sessions) :
    Stateful.startsWithSeed (reqs.foldl (Stateful.applyRequest u comU) []) ∧
    Stateful.startsWithSeed
      (Stateful.handleChat u comU sessions (some sid) (some msg)).sessions ∧
    (Stateful.handleChat u comU sessions (some sid) (some msg)).classifierCalls
      = [Stateful.classifierPrompt (Stateful.contextAfterAppend sessions sid msg)] ∧
    (Stateful.contextAfterAppend sessions sid msg).getLast? = some msg ∧
    ((Stateful.isMedicalQueryRun u
        (Stateful.contextAfterAppend sessions sid msg)).result = .ok false →
      Stateful.lookup
          (Stateful.handleChat u comU sessions (some sid) (some msg)).sessions sid
        = some (Stateful.contextAfterAppend sessions sid msg ++ [refusalMessage])) ∧
    (∀ resp reply,
      (Stateful.isMedicalQueryRun u
          (Stateful.contextAfterAppend sessions sid msg)).result = .ok true →
      comU (Stateful.contextAfterAppend sessions sid msg) = .ok resp →
      resp.ok = true →
      (resp.body.choices.bind List.head?).bind Choice.message = some reply →
      Stateful.lookup
          (Stateful.handleChat u comU sessions (some sid) (some msg)).sessions sid
        = some (Stateful.contextAfterAppend sessions sid msg ++ [reply])) := by
  have hc := stateful_handleChat_cases u comU sessions sid msg hsid hrole
  refine ⟨?_, ?_, ?_, ?_, ?_, ?_⟩
  · exact foldl_startsWithSeed u comU reqs [] (by simp [Stateful.startsWithSeed])
  · exact stateful_preserves_seed u comU sessions (some sid) (some msg) hseed
  · cases hrun : (Stateful.isMedicalQueryRun u
        (Stateful.contextAfterAppend sessions sid msg)).result with
    | error e => rw [hc.1 e hrun]
    | ok b =>
      cases b with
      | false => rw [hc.2.1 hrun]
      | true =>
        cases hcu : comU (Stateful.contextAfterAppend sessions sid msg) with
        | error e => rw [hc.2.2.1 e hrun hcu]
        | ok resp =>
          cases hok : resp.ok with
          | false => rw [hc.2.2.2.1 resp hrun hcu hok]
          | true => rw [hc.2.2.2.2 resp hrun hcu hok]
  · simp [Stateful.contextAfterAppend]
  · intro hrun
    rw [hc.2.1 hrun]
    exact lookup_store_self _ sid _
  · intro resp reply hrun hcu hok hrep
    rw [hc.2.2.2.2 resp hrun hcu hok]
    simp only [hrep]
    exact lookup_store_self _ sid _

/-- Witness for C5 at a concrete denied request from the empty store. -/
theorem stateful_session_invariants_witness :
    ("s1" : String) ≠ "" ∧
    (⟨some "user", some "hi"⟩ : Message).role = some "user" ∧
    Stateful.lookup
        (Stateful.handleChat noUpstream yesUpstream [] (some "s1")
          (some ⟨some "user", some "hi"⟩)).sessions "s1"
      = some (Stateful.contextAfterAppend [] "s1" ⟨some "user", some "hi"⟩
          ++ [refusalMessage]) :=
  ⟨by decide, rfl,
   (stateful_session_invariants noUpstream yesUpstream [] "s1" ⟨some "user", some "hi"⟩ []
      (by decide) rfl (by simp [Stateful.startsWithSeed])).2.2.2.2.1 (by decide)⟩

/-- C6 counterexample: a request with the empty string as sessionId — a
present sessionId and a well-formed user message — is still answered with
the validation 400, because JS `!sessionId` treats the empty string as
missing. -/
theorem stateful_validation_counterexample :
    (Stateful.handleChat yesUpstream yesUpstream [] (some "")
        (some ⟨some "user", some "hi"⟩)).resp
      = .badRequest "Missing or invalid sessionId or message" ∧
    (some "" : Option String) ≠ none ∧
    (⟨some "user", some "hi"⟩ : Message).role = some "user" :=
  ⟨rfl, by decide, rfl⟩

/-- C6 amended: the stateful handler answers the validation 400 body exactly
when sessionId is missing or the empty string, or message is missing, or the
message role is not the string user; such a request leaves the store
untouched and performs no upstream call. -/
theorem stateful_validation_amended (u comU : Upstream) (sessions : Stateful.Sessions)
    (sessionId : Option String) (message : Option Message) :
    ((Stateful.handleChat u comU sessions sessionId message).resp
        = .badRequest "Missing or invalid sessionId or message"
      ↔ sessionId = none ∨ sessionId = some "" ∨ message = none
          ∨ message.bind Message.role ≠ some "user") ∧
    ((sessionId = none ∨ sessionId = some "" ∨ message = none
        ∨ message.bind Message.role ≠ some "user") →
      Stateful.handleChat u comU sessions sessionId message
        = ⟨.badRequest "Missing or invalid sessionId or message", sessions, [], []⟩) := by
  cases sessionId with
  | none =>
    constructor
    · constructor
      · intro _; exact Or.inl rfl
      · intro _; cases message <;> rfl
    · intro _; cases message <;> rfl
  | some sid =>
    cases message with
    | none =>
      constructor
      · constructor
        · intro _; exact Or.inr (Or.inr (Or.inl rfl))
        · intro _; rfl
      · intro _; rfl
    | some msg =>
      by_cases hrole : msg.role = some "user"
      · by_cases hsid : sid = ""
        · subst hsid
          have hval : Stateful.handleChat u comU sessions (some "") (some msg)
              = ⟨.badRequest "Missing or invalid sessionId or message", sessions, [], []⟩ := by
            simp [Stateful.handleChat]
          constructor
          · constructor
            · intro _; exact Or.inr (Or.inl rfl)
            · intro _; rw [hval]
          · intro _; exact hval
        · have hnb := stateful_valid_not_badRequest u comU sessions sid msg hsid hrole
            "Missing or invalid sessionId or message"
          constructor
          · constructor
            · intro habs; exact absurd habs hnb
            · intro habs
              rcases habs with h | h | h | h
              · exact absurd h (by simp)
              · exact absurd (Option.some_injective _ h) hsid
              · exact absurd h (by simp)
              · exact absurd (by simpa using hrole) h
          · intro habs
            rcases habs with h | h | h | h
            · exact absurd h (by simp)
            · exact absurd (Option.some_injective _ h) hsid
            · exact absurd h (by simp)
            · exact absurd (by simpa using hrole) h
      · have hval : Stateful.handleChat u comU sessions (some sid) (some msg)
            = ⟨.badRequest "Missing or invalid sessionId or message", sessions, [], []⟩ := by
          simp [Stateful.handleChat, hrole]
        constructor
        · constructor
          · intro _
            exact Or.inr (Or.inr (Or.inr (by simpa using hrole)))
          · intro _; rw [hval]
        · intro _; exact hval

/-- Witness for C6's amended statement at a concrete invalid request. -/
theorem stateful_validation_amended_witness :
    ((some "" : Option String) = none ∨ (some "" : Option String) = some ""
      ∨ (some ⟨some "user", some "hi"⟩ : Option Message) = none
      ∨ (some (⟨some "user", some "hi"⟩ : Message)).bind Message.role ≠ some "user") ∧
    Stateful.handleChat yesUpstream yesUpstream [] (some "")
        (some ⟨some "user", some "hi"⟩)
      = ⟨.badRequest "Missing or invalid sessionId or message", [], [], []⟩ :=
  ⟨Or.inr (Or.inl rfl),
   (stateful_validation_amended yesUpstream yesUpstream [] (some "")
      (some ⟨some "user", some "hi"⟩)).2 (Or.inr (Or.inl rfl))⟩

/-- C10: in the stateful variant, when an allowed request's completion call
fails — thrown, or answered with a non-success status — the error response
is returned while the already-appended user message stays in the session:
the stored list is exactly the context ending with the new user turn, with
no assistant reply added. -/
theorem stateful_no_rollback (u comU : Upstream) (sessions : Stateful.Sessions)
    (sid : String) (msg : Message)
    (hsid : sid ≠ "") (hrole : msg.role = some "user")
    (hallow : (Stateful.isMedicalQueryRun u
        (Stateful.contextAfterAppend sessions sid msg)).result = .ok true) :
    (∀ e, comU (Stateful.contextAfterAppend sessions sid msg) = .error e →
      (Stateful.handleChat u comU sessions (some sid) (some msg)).resp
          = .errorResp 500 "Internal Server Error" e ∧
      Stateful.lookup
          (Stateful.handleChat u comU sessions (some sid) (some msg)).sessions sid
        = some (Stateful.contextAfterAppend sessions sid msg)) ∧
    (∀ resp, comU (Stateful.contextAfterAppend sessions sid msg) = .ok resp →
      resp.ok = false →
      (Stateful.handleChat u comU sessions (some sid) (some msg)).resp
          = .errorResp resp.status "OpenAI API Error" (extractDetails resp.body) ∧
      Stateful.lookup
          (Stateful.handleChat u comU sessions (some sid) (some msg)).sessions sid
        = some (Stateful.contextAfterAppend sessions sid msg)) ∧
    (Stateful.contextAfterAppend sessions sid msg).getLast? = some msg := by
  have hc := stateful_handleChat_cases u comU sessions sid msg hsid hrole
  refine ⟨?_, ?_, by simp [Stateful.contextAfterAppend]⟩
  · intro e hcu
    rw [hc.2.2.1 e hallow hcu]
    exact ⟨rfl, lookup_store_self _ sid _⟩
  · intro resp hcu hok
    rw [hc.2.2.2.1 resp hallow hcu hok]
    exact ⟨rfl, lookup_store_self _ sid _⟩

/-- Witness for C10 at a concrete throwing completion stub. -/
theorem stateful_no_rollback_witness :
    (Stateful.handleChat yesUpstream failUpstream [] (some "s1")
        (some ⟨some "user", some "fever"⟩)).resp
      = .errorResp 500 "Internal Server Error" "network failure" ∧
    Stateful.lookup
        (Stateful.handleChat yesUpstream failUpstream [] (some "s1")
          (some ⟨some "user", some "fever"⟩)).sessions "s1"
      = some (Stateful.contextAfterAppend [] "s1" ⟨some "user", some "fever"⟩) :=
  (stateful_no_rollback yesUpstream failUpstream [] "s1" ⟨some "user", some "fever"⟩
    (by decide) rfl (by decide)).1 "network failure" rfl

end WellMed
